import Mathlib

/-!
Verification of the realtime-chat backend (backend/app/main.py, translate.py,
models.py) against its specification. The mutable pieces of the program are
embedded as pure state-passing functions:

* `ConnState` models `ConnectionManager`: the `active_connections` dict as a
  function `Nat → Option Nat` (user id to websocket channel id), plus a log of
  channels the manager has closed (the source manager never closes a channel,
  so no operation appends to it).
* `handle_frame` models one iteration of the `while True` receive loop of
  `websocket_endpoint` (main.py lines 139-163): receiver lookup, translation,
  persistence, delivery attempt. Exceptions are modelled by a `raised` flag.
* `websocket_endpoint_auth` models the authentication phase of
  `websocket_endpoint` (lines 119-136), with the outcome of `jwt.decode` and of
  the user lookup passed in as parameters.
* `get_messages` models the `/messages/{user_id}` query endpoint (lines
  104-117): a filter over the message table, with no ordering applied, exactly
  as in the source (the query has no order_by).
-/

namespace Chat

/-- A row of the `users` table (models.py `User`): id, username, 2-letter
language code. The password column plays no role in the claims. -/
structure User where
  id : Nat
  username : String
  language : String
deriving DecidableEq, Repr

/-- A row of the `messages` table (models.py `Message`). The server-assigned
timestamp is modelled as a `Nat`. -/
structure Message where
  id : Nat
  sender_id : Nat
  receiver_id : Nat
  original_message : String
  translated_message : String
  timestamp : Nat
deriving DecidableEq, Repr

/-- An inbound websocket frame `{"receiver_id": ..., "message": ...}`
(main.py lines 139-140, already well-formed). -/
structure Frame where
  receiver_id : Nat
  message : String
deriving DecidableEq, Repr

/-- The outbound frame pushed to the receiver (the dict literal at main.py
lines 154-161). -/
structure OutFrame where
  id : Nat
  sender_id : Nat
  receiver_id : Nat
  original_message : String
  translated_message : String
  timestamp : Nat
deriving DecidableEq, Repr

/-- The outbound frame built from a freshly persisted message: every field of
the dict at main.py lines 154-161 comes from the refreshed `message` row (the
dict's `sender_id` is `user.id` and `receiver_id` is `data["receiver_id"]`,
which equal the row's columns by construction at lines 143-148). -/
def mkOutFrame (m : Message) : OutFrame :=
  ⟨m.id, m.sender_id, m.receiver_id, m.original_message, m.translated_message, m.timestamp⟩

/-- State of `ConnectionManager` (main.py lines 38-53): the
`active_connections` dict as a finite map from user id to channel id, together
with the list of channels the manager has closed. No method of the source
class ever closes a websocket, so no operation below appends to `closed`. -/
structure ConnState where
  active_connections : Nat → Option Nat
  closed : List Nat

/-- `ConnectionManager.connect` (main.py lines 42-44): accept the websocket
and install it under `user_id`, overwriting any prior entry for that user.
The superseded channel, if any, is not closed and not recorded anywhere. -/
def connect (st : ConnState) (user_id channel : Nat) : ConnState :=
  { st with active_connections :=
      fun v => if v = user_id then some channel else st.active_connections v }

/-- `ConnectionManager.disconnect` (main.py lines 46-47):
`self.active_connections.pop(user_id, None)` — remove the entry for
`user_id` unconditionally; a missing key is not an error. The method takes no
channel argument. -/
def disconnect (st : ConnState) (user_id : Nat) : ConnState :=
  { st with active_connections :=
      fun v => if v = user_id then none else st.active_connections v }

/-- Lookup of a user's registered channel: `self.active_connections[user_id]`
guarded by the `in` test. -/
def lookup (st : ConnState) (user_id : Nat) : Option Nat :=
  st.active_connections user_id

/-- `ConnectionManager.send_personal_message` (main.py lines 49-51). The
Python method returns `None`; the model instruments its observable effects:
result is `(state after, push succeeded, exception raised)`. `push ch` is the
outcome of `await websocket.send_json(...)` on channel `ch`. The source has
no try/except around the send and performs no cleanup, so a failed push
leaves the state unchanged and raises to the caller. -/
def send_personal_message (st : ConnState) (user_id : Nat) (push : Nat → Bool) :
    ConnState × Bool × Bool :=
  match st.active_connections user_id with
  | some ch => if push ch then (st, true, false) else (st, false, true)
  | none => (st, false, false)

/-- Modelled from the spec: the channel-guarded `unregister(userId, channel)`
of §4.1 — remove the mapping only if the currently registered channel is the
same physical channel. Stated from the spec's words, for comparison with the
source's `disconnect`. -/
def unregister_spec (st : ConnState) (user_id channel : Nat) : ConnState :=
  match st.active_connections user_id with
  | some c => if c = channel then disconnect st user_id else st
  | none => st

/-- `translate_text` (translate.py lines 5-11): call the translator; on any
exception return the original text. The opaque googletrans call is passed in
as `translator`, returning `Except.ok` with the translated text or
`Except.error` when it would raise. -/
def translate_text (text target_language : String)
    (translator : String → String → Except Unit String) : String :=
  match translator text target_language with
  | Except.ok t => t
  | Except.error _ => text

/-- `db.query(models.User).filter(models.User.id == ...).first()`
(main.py line 140): first user row with the given id. -/
def find_user (users : List User) (uid : Nat) : Option User :=
  users.find? (fun u => u.id == uid)

/-- One iteration of the receive loop of `websocket_endpoint` (main.py lines
139-163) after `data` was received: look up the receiver; if absent do
nothing; otherwise translate, persist the message (`db.add`/`commit` assign
`next_id` and the server timestamp `now`), then attempt delivery via
`manager.send_personal_message`. Result: `(message table after, out-frames
pushed, exception raised while sending)`. The commit precedes the send, so
the new row is present in every branch, including the one where the push
raises. -/
def handle_frame (users : List User) (messages : List Message)
    (conns : Nat → Option Nat) (push : Nat → Bool) (sender_id : Nat)
    (data : Frame) (translator : String → String → Except Unit String)
    (next_id now : Nat) : List Message × List OutFrame × Bool :=
  match find_user users data.receiver_id with
  | none => (messages, [], false)
  | some receiver =>
      let translated := translate_text data.message receiver.language translator
      let m : Message :=
        ⟨next_id, sender_id, data.receiver_id, data.message, translated, now⟩
      match conns data.receiver_id with
      | some ch =>
          if push ch then (messages ++ [m], [mkOutFrame m], false)
          else (messages ++ [m], [], true)
      | none => (messages ++ [m], [], false)

/-- The `/messages/{user_id}` endpoint `get_messages` (main.py lines
104-117): filter the message table to rows between `current_user` and
`user_id` in either direction. The source query has no `order_by`, so the
rows come back in the table's own order. -/
def get_messages (messages : List Message) (current_user_id user_id : Nat) :
    List Message :=
  messages.filter (fun m =>
    (m.sender_id == current_user_id && m.receiver_id == user_id) ||
    (m.sender_id == user_id && m.receiver_id == current_user_id))

/-- Outcome of the authentication phase of `websocket_endpoint`:
`closeCode` records an explicit `websocket.close(code=...)`, `activeUser` the
user registered via `manager.connect`, `raised` whether the handler exited
through the top-level `except` block. -/
structure AuthOutcome where
  st : ConnState
  closeCode : Option Nat
  activeUser : Option Nat
  raised : Bool

/-- The authentication phase of `websocket_endpoint` (main.py lines 119-136).
`decodeRes` is the outcome of `jwt.decode` combined with `payload.get("sub")`
(`Except.error` when decoding raises, otherwise the optional subject);
`get_user` is the user lookup by username. When decoding raises, control
jumps to the `except` block at lines 168-171, which only prints (`user` is
not in `locals()`), with no `websocket.close` call. A missing subject or an
unknown user closes with code 1008 and returns. Only a resolved user reaches
`manager.connect`. -/
def websocket_endpoint_auth (st : ConnState) (channel : Nat)
    (decodeRes : Except Unit (Option String)) (get_user : String → Option User) :
    AuthOutcome :=
  match decodeRes with
  | Except.error _ => ⟨st, none, none, true⟩
  | Except.ok none => ⟨st, some 1008, none, false⟩
  | Except.ok (some username) =>
      match get_user username with
      | none => ⟨st, some 1008, none, false⟩
      | some u => ⟨connect st u.id channel, none, some u.id, false⟩

/-- The ways an `Active` connection of `websocket_endpoint` terminates: the
`while True` loop at lines 138-163 exits only via an exception — peer
disconnect (`receive_json` raising `WebSocketDisconnect`), a transport error,
or a malformed frame (`KeyError` on `data["receiver_id"]`). -/
inductive ExitTrigger where
  | peerDisconnect
  | transportError
  | malformedFrame
deriving DecidableEq, Repr

/-- The cleanup a terminating connection performs (main.py lines 168-171):
every exit trigger raises, the `except` block runs, `user` is in `locals()`,
and `manager.disconnect(user.id)` executes — the same unguarded removal
regardless of which trigger fired and regardless of which channel this
connection registered. -/
def websocket_exit (st : ConnState) (user_id : Nat) (_t : ExitTrigger) :
    ConnState :=
  disconnect st user_id

/-- An empty registry: no connections, nothing closed. -/
def emptyConn : ConnState := ⟨fun _ => none, []⟩

/-- A registry in which user 1 is connected over channel 10. -/
def oneConn : ConnState := ⟨fun v => if v = 1 then some 10 else none, []⟩

/-- A registry in which user 1 is connected over the newer channel 20
(an older channel 10 of the same user was superseded). -/
def newerConn : ConnState := ⟨fun v => if v = 1 then some 20 else none, []⟩

/-- A registry in which user 2 is connected over channel 5 and user 1 is not
connected. -/
def absentConn : ConnState := ⟨fun v => if v = 2 then some 5 else none, []⟩

/-- C1 counterexample: after `connect(1, 10)` then `connect(1, 20)` on the
empty registry, `lookup 1` does return the newer channel 20, but the
superseded channel 10 has been closed zero times by the manager, not exactly
once as the claim states. -/
theorem connect_supersede_no_close_cex :
    lookup (connect (connect emptyConn 1 10) 1 20) 1 = some 20 ∧
    (connect (connect emptyConn 1 10) 1 20).closed.count 10 = 0 ∧
    (connect (connect emptyConn 1 10) 1 20).closed.count 10 ≠ 1 := by
  refine ⟨rfl, rfl, ?_⟩
  decide

/-- C1 (amended): after `register(u, c1)` then `register(u, c2)` (in the code,
`ConnectionManager.connect`), `lookup(u)` returns c2, but the superseded
channel c1 is not closed by the registry at all — `connect` never closes a
channel, so the close log is unchanged and the old channel is orphaned. -/
theorem connect_supersede_lookup_no_close (st : Chat.ConnState) (u c1 c2 : Nat) :
    lookup (connect (connect st u c1) u c2) u = some c2 ∧
    (connect (connect st u c1) u c2).closed = st.closed := by
  refine ⟨?_, rfl⟩
  simp [lookup, connect]

/-- C2 counterexample: after `connect(1, 10)` then `connect(1, 20)`, invoking
the code's `disconnect` for user 1 (the only way the code can express
`unregister(u, c1)`, since `disconnect` takes no channel argument) removes
the mapping: `lookup 1` becomes `none`, not `some 20` as the claim states.
The spec's channel-guarded `unregister_spec` on the same state and stale
channel 10 would have left channel 20 registered. -/
theorem disconnect_unguarded_cex :
    lookup (disconnect (connect (connect emptyConn 1 10) 1 20) 1) 1 = none ∧
    lookup (unregister_spec (connect (connect emptyConn 1 10) 1 20) 1 10) 1 =
      some 20 := by
  exact ⟨rfl, rfl⟩

/-- C2 (amended): `ConnectionManager.disconnect` takes only a user id and
removes that user's mapping unconditionally — there is no channel-identity
guard. In particular, after `register(u, c1)` then `register(u, c2)`, a stale
disconnect for u evicts the newer channel: `lookup(u)` returns `none`, not
c2. -/
theorem disconnect_removes_unconditionally (st : Chat.ConnState) (u c1 c2 : Nat) :
    lookup (disconnect (connect (connect st u c1) u c2) u) u = none := by
  simp [lookup, disconnect]

/-- C10: `ConnectionManager.disconnect` is total — it is
`dict.pop(user_id, None)`, which never raises — idempotent (applying it twice
equals applying it once), and a no-op on a user with no registered channel
(the whole state, mapping and close log, is unchanged). -/
theorem disconnect_total_idempotent (st : Chat.ConnState) (u : Nat) :
    disconnect (disconnect st u) u = disconnect st u ∧
    (lookup st u = none → disconnect st u = st) := by
  constructor
  · simp only [disconnect]
    congr 1
    funext v
    by_cases h : v = u <;> simp [h]
  · intro h
    simp only [lookup] at h
    cases st with
    | mk m c =>
        simp only [disconnect]
        congr 1
        funext v
        by_cases hv : v = u
        · subst hv
          simpa using h.symm
        · simp [hv]

/-- C10 witness: on a registry where user 1 has no channel, `disconnect 1` is
idempotent and leaves the state unchanged. -/
theorem disconnect_total_idempotent_witness :
    disconnect (disconnect absentConn 1) 1 = disconnect absentConn 1 ∧
    disconnect absentConn 1 = absentConn :=
  ⟨(disconnect_total_idempotent absentConn 1).1,
   (disconnect_total_idempotent absentConn 1).2 rfl⟩

/-- C3 counterexample: user 1 is connected over channel 10 and the transport
push fails. `send_personal_message` raises (the exception propagates to the
caller — the source has no try/except) and the registry is unchanged — no
unregistration of the failed channel is performed. Both the
never-propagates and the best-effort-unregistration parts of the claim fail
at this input. -/
theorem send_push_failure_raises_cex :
    send_personal_message oneConn 1 (fun _ => false) = (oneConn, false, true) ∧
    lookup (send_personal_message oneConn 1 (fun _ => false)).1 1 = some 10 := by
  exact ⟨rfl, rfl⟩

/-- C3 (amended): `ConnectionManager.send_personal_message` pushes the frame
iff a channel is registered for the user; it returns no delivery indicator
(the Python method returns None). It never modifies the registry — in
particular a failed push triggers no unregistration — and a transport error
during the push propagates to the caller, since the source has no
try/except around `send_json`. -/
theorem send_personal_message_spec (st : Chat.ConnState) (u : Nat)
    (push : Nat → Bool) :
    (send_personal_message st u push).1 = st ∧
    (st.active_connections u = none →
      send_personal_message st u push = (st, false, false)) ∧
    (∀ ch, st.active_connections u = some ch →
      send_personal_message st u push = (st, push ch, !(push ch))) := by
  refine ⟨?_, ?_, ?_⟩
  · cases h : st.active_connections u with
    | none => simp [send_personal_message, h]
    | some ch =>
        cases hp : push ch <;> simp [send_personal_message, h, hp]
  · intro h
    simp [send_personal_message, h]
  · intro ch h
    cases hp : push ch <;> simp [send_personal_message, h, hp]

/-- C3 witness: the amended theorem applied at a registry where user 1 is on
channel 10 and user 2 is absent — a disconnected target makes the call a
no-op, and a failing push on channel 10 raises while leaving the state
alone. -/
theorem send_personal_message_spec_witness :
    (send_personal_message oneConn 1 (fun _ => false)).1 = oneConn ∧
    send_personal_message oneConn 2 (fun _ => false) = (oneConn, false, false) ∧
    send_personal_message oneConn 1 (fun _ => false) = (oneConn, false, true) :=
  ⟨(send_personal_message_spec oneConn 1 (fun _ => false)).1,
   (send_personal_message_spec oneConn 2 (fun _ => false)).2.1 rfl,
   (send_personal_message_spec oneConn 1 (fun _ => false)).2.2 10 rfl⟩

/-- C4: for an inbound frame whose receiver exists in the store, exactly one
message row is appended, whose `translated_message` is the output of
`translate_text` for the message and the receiver's language; and
`translate_text` equals the translator's output when it succeeds and the
original text when it fails, so a translation failure never blocks or drops
the message (the row is persisted in every branch, whatever the delivery
outcome). -/
theorem handle_frame_persists_translated (users : List Chat.User)
    (messages : List Chat.Message) (conns : Nat → Option Nat)
    (push : Nat → Bool) (sender_id : Nat) (data : Chat.Frame)
    (translator : String → String → Except Unit String) (next_id now : Nat)
    (r : Chat.User) (hr : find_user users data.receiver_id = some r) :
    (handle_frame users messages conns push sender_id data translator
        next_id now).1 =
      messages ++ [⟨next_id, sender_id, data.receiver_id, data.message,
        translate_text data.message r.language translator, now⟩] ∧
    (∀ t, translator data.message r.language = Except.ok t →
      translate_text data.message r.language translator = t) ∧
    (∀ e, translator data.message r.language = Except.error e →
      translate_text data.message r.language translator = data.message) := by
  refine ⟨?_, ?_, ?_⟩
  · simp only [handle_frame, hr]
    cases h : conns data.receiver_id with
    | none => rfl
    | some ch => cases hp : push ch <;> simp [hp]
  · intro t ht
    simp [translate_text, ht]
  · intro e he
    simp [translate_text, he]

/-- C4 witness: user 1 sends "hello" to user 2 (language "es") with a
translator that succeeds with "hola": exactly one row is appended, carrying
the translator's output. -/
theorem handle_frame_persists_translated_witness :
    (handle_frame [⟨2, "bob", "es"⟩] [] (fun _ => none) (fun _ => true) 1
        ⟨2, "hello"⟩ (fun _ _ => Except.ok "hola") 1 0).1 =
      [⟨1, 1, 2, "hello", "hola", 0⟩] ∧
    translate_text "hello" "es" (fun _ _ => Except.ok "hola") = "hola" :=
  ⟨(handle_frame_persists_translated [⟨2, "bob", "es"⟩] [] (fun _ => none)
      (fun _ => true) 1 ⟨2, "hello"⟩ (fun _ _ => Except.ok "hola") 1 0
      ⟨2, "bob", "es"⟩ rfl).1,
   (handle_frame_persists_translated [⟨2, "bob", "es"⟩] [] (fun _ => none)
      (fun _ => true) 1 ⟨2, "hello"⟩ (fun _ _ => Except.ok "hola") 1 0
      ⟨2, "bob", "es"⟩ rfl).2.1 "hola" rfl⟩

/-- C5: when the frame's receiver exists in the store but has no registered
channel, no outbound frame is pushed and no exception is raised, yet the
message row is persisted (the commit at main.py lines 149-151 precedes the
delivery attempt at lines 153-163), and the row is returned by the
`/messages/{user_id}` query for the sender and that receiver. -/
theorem handle_frame_offline_persists (users : List Chat.User)
    (messages : List Chat.Message) (conns : Nat → Option Nat)
    (push : Nat → Bool) (sender_id : Nat) (data : Chat.Frame)
    (translator : String → String → Except Unit String) (next_id now : Nat)
    (r : Chat.User) (hr : find_user users data.receiver_id = some r)
    (hc : conns data.receiver_id = none) :
    handle_frame users messages conns push sender_id data translator
        next_id now =
      (messages ++ [⟨next_id, sender_id, data.receiver_id, data.message,
        translate_text data.message r.language translator, now⟩], [], false) ∧
    (⟨next_id, sender_id, data.receiver_id, data.message,
        translate_text data.message r.language translator, now⟩ : Chat.Message) ∈
      get_messages
        (messages ++ [⟨next_id, sender_id, data.receiver_id, data.message,
          translate_text data.message r.language translator, now⟩])
        sender_id data.receiver_id := by
  constructor
  · simp only [handle_frame, hr, hc]
  · simp [get_messages, List.mem_filter]

/-- C5 witness: user 1 sends to the offline user 2: the row is persisted, no
push happens, and the query endpoint for (sender 1, target 2) returns it. -/
theorem handle_frame_offline_persists_witness :
    handle_frame [⟨2, "bob", "es"⟩] [] (fun _ => none) (fun _ => true) 1
        ⟨2, "hello"⟩ (fun _ _ => Except.error ()) 1 0 =
      ([⟨1, 1, 2, "hello", "hello", 0⟩], [], false) ∧
    (⟨1, 1, 2, "hello", "hello", 0⟩ : Chat.Message) ∈
      get_messages [⟨1, 1, 2, "hello", "hello", 0⟩] 1 2 :=
  ⟨(handle_frame_offline_persists [⟨2, "bob", "es"⟩] [] (fun _ => none)
      (fun _ => true) 1 ⟨2, "hello"⟩ (fun _ _ => Except.error ()) 1 0
      ⟨2, "bob", "es"⟩ rfl rfl).1,
   (handle_frame_offline_persists [⟨2, "bob", "es"⟩] [] (fun _ => none)
      (fun _ => true) 1 ⟨2, "hello"⟩ (fun _ _ => Except.error ()) 1 0
      ⟨2, "bob", "es"⟩ rfl rfl).2⟩

/-- C6: a frame whose receiver id is not in the store is silently dropped:
the message table is unchanged, no outbound frame is pushed, and no error is
raised (the `if receiver:` at main.py line 141 simply falls through). -/
theorem handle_frame_unknown_receiver_drops (users : List Chat.User)
    (messages : List Chat.Message) (conns : Nat → Option Nat)
    (push : Nat → Bool) (sender_id : Nat) (data : Chat.Frame)
    (translator : String → String → Except Unit String) (next_id now : Nat)
    (hr : find_user users data.receiver_id = none) :
    handle_frame users messages conns push sender_id data translator
      next_id now = (messages, [], false) := by
  simp [handle_frame, hr]

/-- C6 witness: with an empty user table, a frame to receiver 5 leaves the
message table unchanged, pushes nothing and raises nothing. -/
theorem handle_frame_unknown_receiver_drops_witness :
    handle_frame [] [⟨1, 1, 2, "a", "a", 0⟩] (fun _ => some 10)
      (fun _ => true) 1 ⟨5, "x"⟩ (fun _ _ => Except.ok "y") 2 1 =
      ([⟨1, 1, 2, "a", "a", 0⟩], [], false) :=
  handle_frame_unknown_receiver_drops [] [⟨1, 1, 2, "a", "a", 0⟩]
    (fun _ => some 10) (fun _ => true) 1 ⟨5, "x"⟩ (fun _ _ => Except.ok "y")
    2 1 rfl

/-- C7 counterexample: a token on which `jwt.decode` raises sends control to
the top-level `except` block, which only prints — the handler terminates with
no explicit `websocket.close` call, so no authentication-failure close code
is issued; no session is registered either. The claim's
closes-with-an-authentication-failure-code part fails on this path. -/
theorem websocket_auth_decode_error_no_close_cex :
    websocket_endpoint_auth emptyConn 10 (Except.error ()) (fun _ => none) =
      ⟨emptyConn, none, none, true⟩ := by
  rfl

/-- C7 (amended): no authentication-failure path of `websocket_endpoint`
registers a session — the registry is unchanged — but only two of the three
paths close with code 1008: a token that decodes with no subject, and a
subject that resolves to no user. A token on which `jwt.decode` raises makes
the handler exit through its `except` block without any explicit close. -/
theorem websocket_auth_failure_no_session (st : Chat.ConnState) (channel : Nat)
    (decodeRes : Except Unit (Option String))
    (get_user : String → Option Chat.User) :
    (∀ e, decodeRes = Except.error e →
      websocket_endpoint_auth st channel decodeRes get_user =
        ⟨st, none, none, true⟩) ∧
    (decodeRes = Except.ok none →
      websocket_endpoint_auth st channel decodeRes get_user =
        ⟨st, some 1008, none, false⟩) ∧
    (∀ username, decodeRes = Except.ok (some username) →
      get_user username = none →
      websocket_endpoint_auth st channel decodeRes get_user =
        ⟨st, some 1008, none, false⟩) := by
  refine ⟨?_, ?_, ?_⟩
  · intro e he
    simp [websocket_endpoint_auth, he]
  · intro h
    simp [websocket_endpoint_auth, h]
  · intro username h hu
    simp [websocket_endpoint_auth, h, hu]

/-- C7 witness: the amended theorem at concrete failing inputs — a raising
decode, a subject-less token, and an unknown username — each leaving the
empty registry unregistered, the latter two closing with 1008. -/
theorem websocket_auth_failure_no_session_witness :
    websocket_endpoint_auth emptyConn 10 (Except.error ()) (fun _ => none) =
      ⟨emptyConn, none, none, true⟩ ∧
    websocket_endpoint_auth emptyConn 10 (Except.ok none) (fun _ => none) =
      ⟨emptyConn, some 1008, none, false⟩ ∧
    websocket_endpoint_auth emptyConn 10 (Except.ok (some "alice"))
        (fun _ => none) = ⟨emptyConn, some 1008, none, false⟩ :=
  ⟨(websocket_auth_failure_no_session emptyConn 10 (Except.error ())
      (fun _ => none)).1 () rfl,
   (websocket_auth_failure_no_session emptyConn 10 (Except.ok none)
      (fun _ => none)).2.1 rfl,
   (websocket_auth_failure_no_session emptyConn 10 (Except.ok (some "alice"))
      (fun _ => none)).2.2 "alice" rfl rfl⟩

/-- C8 counterexample: a handler whose own channel was 10 terminates while
the registry maps user 1 to the newer channel 20. The code's cleanup —
`manager.disconnect(user.id)`, whatever the exit trigger — removes the
mapping entirely, whereas the spec's channel-guarded
`unregister(userId, thisChannel)` would have left channel 20 registered. So
the cleanup is not performed via `unregister(userId, thisChannel)`: it can
evict a newer session of the same user. -/
theorem websocket_exit_not_channel_guarded_cex :
    lookup (websocket_exit newerConn 1 ExitTrigger.peerDisconnect) 1 = none ∧
    lookup (unregister_spec newerConn 1 10) 1 = some 20 := by
  exact ⟨rfl, rfl⟩

/-- C8 (amended): on every exit trigger of an `Active` connection — peer
disconnect, transport error, or malformed frame — the handler's `except`
block runs `manager.disconnect(user.id)`, an unconditional removal that is
not guarded by channel identity. Afterwards the user has no registered
channel, so the terminating connection never leaves its own registration
behind (though the same removal can evict a newer session of the same
user). -/
theorem websocket_exit_clears_registration (st : Chat.ConnState) (u : Nat)
    (t : Chat.ExitTrigger) :
    lookup (websocket_exit st u t) u = none ∧
    websocket_exit st u t = disconnect st u := by
  exact ⟨by simp [lookup, websocket_exit, disconnect], rfl⟩

/-- C9 counterexample: a message table holding the conversation between users
1 and 2 with timestamps 5 then 3. `get_messages` returns both rows in table
order — timestamps [5, 3] — which is not ordered by timestamp, because the
source query has no `order_by`. -/
theorem get_messages_unordered_cex :
    get_messages [⟨1, 1, 2, "a", "a", 5⟩, ⟨2, 2, 1, "b", "b", 3⟩] 1 2 =
      [⟨1, 1, 2, "a", "a", 5⟩, ⟨2, 2, 1, "b", "b", 3⟩] ∧
    ¬ List.Sorted (fun a b : Nat => a ≤ b)
      ((get_messages [⟨1, 1, 2, "a", "a", 5⟩, ⟨2, 2, 1, "b", "b", 3⟩] 1 2).map
        Chat.Message.timestamp) := by
  constructor
  · rfl
  · decide

/-- C9 (amended): for an authenticated principal p and target t, the
`/messages/{user_id}` endpoint returns exactly the message rows where p and
t are sender/receiver in either direction — membership is preserved both
ways — in the table's own order (the result is a sublist of the table; no
ordering by timestamp is applied, the query has no `order_by`). -/
theorem get_messages_exact_unordered (messages : List Chat.Message) (p t : Nat) :
    List.Sublist (get_messages messages p t) messages ∧
    ∀ m, m ∈ get_messages messages p t ↔
      m ∈ messages ∧
        ((m.sender_id = p ∧ m.receiver_id = t) ∨
         (m.sender_id = t ∧ m.receiver_id = p)) := by
  constructor
  · exact List.filter_sublist messages
  · intro m
    simp [get_messages, List.mem_filter, and_assoc]

end Chat
